import Mathlib

/-!
Shallow embedding of the sale-domain services, checkout validation schema and
shop-resolution routing of the Bhatekpos-saas backend, with proofs of the
specified properties.

Python `Decimal` values (quantities, prices, stock, money amounts) are
embedded as rationals (`ℚ`); database rows are lists of records; a fallible
operation returns its (possibly rolled-back) database state together with an
`Except` result, mirroring the commit/rollback structure around each
transactional service method.
-/

namespace Bhat

/-! ## Python truthiness for optional strings

In the source, `not x` for an optional string field is true when the field is
`None` or the empty string; several validation branches test exactly that. -/

def pyTruthy : Option String → Bool
  | none => false
  | some s => !(s = "")

/-! ## Per-line rounding (services.py lines 148-149)

`round_up_to_nearest_five(amount) = (amount / 5).to_integral_value(ROUND_UP) * 5`.
`ROUND_UP` rounds away from zero, i.e. ceiling for nonnegative arguments and
floor for negative ones. -/

def toIntegralRoundUp (x : ℚ) : ℤ :=
  if 0 ≤ x then ⌈x⌉ else ⌊x⌋

def round_up_to_nearest_five (amount : ℚ) : ℚ :=
  (toIntegralRoundUp (amount / 5) : ℚ) * 5

/-! ## Decimal quantization to two places (services.py line 192)

`(x).quantize(Decimal('0.01'))` with the default `ROUND_HALF_EVEN` context:
round `x * 100` to the nearest integer, ties to the even integer. -/

def roundHalfEven (x : ℚ) : ℤ :=
  if Int.fract x < 1 / 2 then ⌊x⌋
  else if 1 / 2 < Int.fract x then ⌊x⌋ + 1
  else if ⌊x⌋ % 2 = 0 then ⌊x⌋ else ⌊x⌋ + 1

def quantize2 (x : ℚ) : ℚ :=
  (roundHalfEven (x * 100) : ℚ) / 100

/-! ## Checkout request validation (schemas.py, `CheckoutSchema`)

Field-level rules: `payment_mode` is required and must be one of
`pay_now`/`pay_later`; `payment_method` may be absent, and when present must be
one of `cash`/`mobile`/`pay_on_delivery`; `customer_name` has no field-level
constraint.  The cross-field rule `validate_payment_fields` (lines 75-99) then
checks the mode/method/name pairing.  `CheckoutSchema.accepts` embeds the
conjunction of these checks on the (mode, method, customer_name) triple; the
remaining fields (phone, discount code, cart items) are validated
independently of this triple. -/

def paymentModeFieldOk (mode : String) : Bool :=
  mode = "pay_now" || mode = "pay_later"

def paymentMethodFieldOk : Option String → Bool
  | none => true
  | some m => m = "cash" || m = "mobile" || m = "pay_on_delivery"

def validate_payment_fields (mode : String) (method : Option String)
    (customerName : Option String) : Bool :=
  if mode = "pay_now" then
    pyTruthy method && (method = some "cash" || method = some "mobile")
  else if mode = "pay_later" then
    pyTruthy customerName && (!(pyTruthy method) || method = some "pay_on_delivery")
  else
    true

def CheckoutSchema.accepts (mode : String) (method : Option String)
    (customerName : Option String) : Bool :=
  paymentModeFieldOk mode && paymentMethodFieldOk method &&
    validate_payment_fields mode method customerName

/-! ## Data model

Rows of the entity tables referenced by the sale services.  Only the columns
the services read or write are carried. -/

inductive SaleStatus
  | completed
  | pending
  deriving DecidableEq, Repr

structure Product where
  id : Nat
  shop_id : Nat
  name : String
  stock : ℚ
  cost_price : ℚ
  deriving DecidableEq, Repr

structure TaxRec where
  shop_id : Nat
  rate : ℚ
  is_active : Bool
  is_deleted : Bool
  deriving DecidableEq, Repr

structure Sale where
  id : Nat
  shop_id : Nat
  user_id : Nat
  date : Nat
  status : SaleStatus
  is_paid : Bool
  payment_mode : String
  payment_method : String
  customer_name : Option String
  subtotal : ℚ
  tax : ℚ
  total : ℚ
  profit : ℚ
  deriving DecidableEq, Repr

structure CartItemRec where
  sale_id : Nat
  shop_id : Nat
  product_id : Nat
  quantity : ℚ
  unit_price : ℚ
  total_price : ℚ
  deriving DecidableEq, Repr

/-- The persistent database state visible to the sale services, plus the
clock (`now`, a day index standing for `datetime.utcnow()`) and the sequence
that allocates the next sale primary key. -/
structure DBState where
  products : List Product
  sales : List Sale
  cart_items : List CartItemRec
  taxes : List TaxRec
  next_sale_id : Nat
  now : Nat
  deriving DecidableEq, Repr

/-- A checkout cart line after normalization (services.py lines 118-127):
integer product id, exact decimal quantity and price. -/
structure CartLine where
  product_id : Nat
  quantity : ℚ
  price : ℚ
  deriving DecidableEq, Repr

/-- The `customer_data` dict argument of `process_checkout`. -/
structure CustomerData where
  name : Option String
  phone : Option String
  notes : Option String
  deriving DecidableEq, Repr

deriving instance DecidableEq for Except

/-- The `ValueError` (InvalidInput) conditions raised by the sale services.
The service's outer handler re-raises errors from the transactional block
wrapped in a "Checkout processing failed: ..." message; the constructors here
record the structured cause. -/
inductive CheckoutError
  | emptyCart
  | invalidMethodForPayNow (method : Option String)
  | invalidMethodForPayLater (method : String)
  | customerNameRequired
  | invalidPaymentMode (mode : String)
  | productNotFound (product_id : Nat)
  | insufficientStock (name : String)
  | invalidCompletionMethod
  | saleNotFound
  | saleAlreadyPaid
  | notPayLaterSale
  deriving DecidableEq, Repr

/-- The dict returned by `process_checkout` on success (lines 241-250). -/
structure CheckoutResult where
  success : Bool
  sale_id : Nat
  payment_mode : String
  status : SaleStatus
  is_paid : Bool
  amount_paid : ℚ
  receipt_pending : Bool
  customer_name : Option String
  deriving DecidableEq, Repr

/-- The dict returned by `complete_pay_later_sale` on success (lines 297-303). -/
structure CompleteResult where
  success : Bool
  sale_id : Nat
  status : SaleStatus
  is_paid : Bool
  amount_paid : ℚ
  deriving DecidableEq, Repr

/-! ## Repository and tax helpers -/

/-- Modelled from the spec: `ProductRepository.get_bulk_for_sale` (repositories.py
is not in the excerpt); §4.3.1 step 4 — "Bulk-load the referenced products
scoped to the shop". -/
def ProductRepository.get_bulk_for_sale (st : DBState) (ids : List Nat)
    (shop_id : Nat) : List Product :=
  st.products.filter (fun p => decide (p.id ∈ ids ∧ p.shop_id = shop_id))

/-- The dict `{p.id: p for p in products}` (line 139): on duplicate ids the
last entry wins, so lookup finds the last matching product. -/
def productMapGet (ps : List Product) (pid : Nat) : Option Product :=
  ps.reverse.find? (fun p => p.id == pid)

/-- Modelled from the spec: `Tax.get_tax_rate` lives on the Tax model
(models.py, not in the excerpt); §4.3.1 step 5 / §4.3.5 — the shop's single
active, non-deleted tax record's rate, or 0 when none exists (matching the
body of `TaxService.get_tax_rate`, services.py lines 614-616). -/
def Tax.get_tax_rate (st : DBState) (shop_id : Nat) : ℚ :=
  match st.taxes.find? (fun t => t.shop_id == shop_id && t.is_active && !t.is_deleted) with
  | some t => t.rate
  | none => 0

/-- Modelled from the spec: `SaleRepository.get_sale_with_items` — load the
sale scoped to the shop (§4.3.2). -/
def SaleRepository.get_sale_with_items (st : DBState) (sale_id shop_id : Nat) :
    Option Sale :=
  st.sales.find? (fun s => s.id == sale_id && s.shop_id == shop_id)

/-! ## Checkout (services.py `SalesService.process_checkout`, lines 80-255) -/

/-- Payment mode/method consistency validation (lines 97-116).  Returns the
payment method actually recorded on the sale: the given one for `pay_now`,
and the force-set `pay_on_delivery` for `pay_later`. -/
def checkoutValidate (payment_mode : String) (payment_method : Option String)
    (customer_data : Option CustomerData) : Except CheckoutError String :=
  if payment_mode = "pay_now" then
    match payment_method with
    | some m =>
        if m = "cash" ∨ m = "mobile" then Except.ok m
        else Except.error (CheckoutError.invalidMethodForPayNow (some m))
    | none => Except.error (CheckoutError.invalidMethodForPayNow none)
  else if payment_mode = "pay_later" then
    if pyTruthy payment_method ∧ payment_method ≠ some "pay_on_delivery" then
      Except.error (CheckoutError.invalidMethodForPayLater (payment_method.getD ""))
    else
      match customer_data with
      | none => Except.error CheckoutError.customerNameRequired
      | some cd =>
          if pyTruthy cd.name then Except.ok "pay_on_delivery"
          else Except.error CheckoutError.customerNameRequired
  else Except.error (CheckoutError.invalidPaymentMode payment_mode)

/-- The per-line loop of `process_checkout` (lines 151-190): look each line's
product up in the product map, check stock against the product's (pre-checkout)
stock for `pay_now`, accumulate the rounded line subtotal and the unrounded
line cost, stage the cart-item row and, for `pay_now`, the stock update
`(product.id, product.stock - quantity)`.  The staged cart items carry
`sale_id = 0` until the sale row is created. -/
def stageItems (pm : Nat → Option Product) (pay_now : Bool) (shop_id : Nat) :
    List CartLine → Except CheckoutError (List CartItemRec × ℚ × ℚ × List (Nat × ℚ))
  | [] => Except.ok ([], 0, 0, [])
  | line :: rest =>
    match pm line.product_id with
    | none => Except.error (CheckoutError.productNotFound line.product_id)
    | some product =>
      if pay_now ∧ product.stock < line.quantity then
        Except.error (CheckoutError.insufficientStock product.name)
      else
        match stageItems pm pay_now shop_id rest with
        | Except.error e => Except.error e
        | Except.ok (items, sub, cost, upds) =>
          let item_subtotal := round_up_to_nearest_five (line.quantity * line.price)
          Except.ok
            ({ sale_id := 0, shop_id := shop_id, product_id := product.id,
               quantity := line.quantity, unit_price := line.price,
               total_price := item_subtotal } :: items,
             item_subtotal + sub,
             line.quantity * product.cost_price + cost,
             (if pay_now then [(product.id, product.stock - line.quantity)] else []) ++ upds)

/-- One parameter set of the batched stock update (lines 222-227): set the
stock of the product(s) whose id matches to the staged new value. -/
def applyStockUpdate (ps : List Product) (u : Nat × ℚ) : List Product :=
  ps.map (fun p => if p.id = u.1 then { p with stock := u.2 } else p)

/-- The batched `UPDATE` executes once per staged parameter set, in list
order. -/
def applyStockUpdates (ps : List Product) (upds : List (Nat × ℚ)) : List Product :=
  upds.foldl applyStockUpdate ps

/-- The product lookup used by the checkout loop (lines 137-139): bulk-load
the cart's product ids scoped to the shop and index them by id. -/
def checkoutProductMap (st : DBState) (shop_id : Nat) (cart_items : List CartLine) :
    Nat → Option Product :=
  productMapGet (ProductRepository.get_bulk_for_sale st (cart_items.map (·.product_id)) shop_id)

/-- The Sale row persisted by the commit section of `process_checkout`
(lines 192-217): the computed totals (line 192-194), the mode-determined
status/paid flag (lines 198-204), and the fields handed to
`SaleRepository.create_sale` (modelled from the spec, §4.3.1 steps 8-9). -/
def checkoutSale (st : DBState) (shop_id user_id : Nat) (payment_mode methodUsed : String)
    (customer_data : Option CustomerData) (subtotal total_cost : ℚ) : Sale :=
  { id := st.next_sale_id, shop_id := shop_id, user_id := user_id,
    date := st.now,
    status := if decide (payment_mode = "pay_now") then SaleStatus.completed else SaleStatus.pending,
    is_paid := decide (payment_mode = "pay_now"),
    payment_mode := payment_mode, payment_method := methodUsed,
    customer_name := customer_data.bind (·.name),
    subtotal := subtotal,
    tax := quantize2 (subtotal * Tax.get_tax_rate st shop_id),
    total := subtotal + quantize2 (subtotal * Tax.get_tax_rate st shop_id),
    profit := subtotal - total_cost }

/-- The commit section of `process_checkout` (lines 192-250): totals, sale
status, sale row, line-item rows, batched stock update, and the returned
dict. -/
def commitCheckout (st : DBState) (shop_id user_id : Nat) (payment_mode methodUsed : String)
    (customer_data : Option CustomerData) (staged : List CartItemRec)
    (subtotal total_cost : ℚ) (stock_updates : List (Nat × ℚ)) :
    DBState × CheckoutResult :=
  let sale := checkoutSale st shop_id user_id payment_mode methodUsed customer_data subtotal total_cost
  ({ st with
      sales := st.sales ++ [sale],
      cart_items := st.cart_items ++ staged.map (fun i => { i with sale_id := sale.id }),
      products := applyStockUpdates st.products stock_updates,
      next_sale_id := st.next_sale_id + 1 },
   { success := true, sale_id := sale.id, payment_mode := payment_mode,
     status := sale.status, is_paid := sale.is_paid,
     amount_paid := if sale.is_paid then sale.total else 0,
     receipt_pending := sale.is_paid,
     customer_name := customer_data.bind (·.name) })

/-- `SalesService.process_checkout`.  Returns the database state after the
operation (the committed state on success, the rolled-back original state on
any error) together with the result or the raised error. -/
def processCheckout (st : DBState) (shop_id user_id : Nat)
    (cart_items : List CartLine) (payment_mode : String)
    (payment_method : Option String) (customer_data : Option CustomerData) :
    DBState × Except CheckoutError CheckoutResult :=
  if cart_items = [] then (st, Except.error CheckoutError.emptyCart)
  else
    match checkoutValidate payment_mode payment_method customer_data with
    | Except.error e => (st, Except.error e)
    | Except.ok methodUsed =>
      match stageItems (checkoutProductMap st shop_id cart_items)
          (decide (payment_mode = "pay_now")) shop_id cart_items with
      | Except.error e => (st, Except.error e)
      | Except.ok (staged, subtotal, total_cost, stock_updates) =>
        let c := commitCheckout st shop_id user_id payment_mode methodUsed
          customer_data staged subtotal total_cost stock_updates
        (c.1, Except.ok c.2)

/-! ## Completing a deferred sale (`complete_pay_later_sale`, lines 257-308) -/

/-- The completion loop over the sale's cart items (lines 277-282): items are
processed in order against the *current* in-memory stock, so repeated
products accumulate their decrements. -/
def decrementStock (ps : List Product) :
    List CartItemRec → Except CheckoutError (List Product)
  | [] => Except.ok ps
  | ci :: rest =>
    match ps.find? (fun p => p.id == ci.product_id) with
    | none => Except.error (CheckoutError.productNotFound ci.product_id)
    | some product =>
      if product.stock < ci.quantity then
        Except.error (CheckoutError.insufficientStock product.name)
      else
        decrementStock (applyStockUpdate ps (product.id, product.stock - ci.quantity)) rest

/-- `SalesService.complete_pay_later_sale`.  The status/paid update embeds
`SaleRepository.update_sale_payment_status`, modelled from the spec (§4.3.2:
"Mark the sale paid, set status accordingly"), followed by the in-source
overwrite of the payment method with the one actually used. -/
def complete_pay_later_sale (st : DBState) (sale_id shop_id : Nat)
    (payment_method : String) : DBState × Except CheckoutError CompleteResult :=
  if ¬(payment_method = "cash" ∨ payment_method = "mobile") then
    (st, Except.error CheckoutError.invalidCompletionMethod)
  else
    match SaleRepository.get_sale_with_items st sale_id shop_id with
    | none => (st, Except.error CheckoutError.saleNotFound)
    | some sale =>
      if sale.is_paid then (st, Except.error CheckoutError.saleAlreadyPaid)
      else if sale.payment_method ≠ "pay_on_delivery" then
        (st, Except.error CheckoutError.notPayLaterSale)
      else
        match decrementStock st.products (st.cart_items.filter (fun ci => ci.sale_id == sale_id)) with
        | Except.error e => (st, Except.error e)
        | Except.ok products' =>
          let sale' := { sale with is_paid := true, status := SaleStatus.completed,
                                   payment_method := payment_method }
          ({ st with
              products := products',
              sales := st.sales.map (fun s =>
                if s.id = sale_id ∧ s.shop_id = shop_id then sale' else s) },
           Except.ok
             { success := true, sale_id := sale.id, status := SaleStatus.completed,
               is_paid := true, amount_paid := sale.total })

/-! ## Observation helpers used in the statements -/

/-- The stock column of the (first) product row with the given id. -/
def stockOf (ps : List Product) (pid : Nat) : Option ℚ :=
  (ps.find? (fun p => p.id == pid)).map (·.stock)

/-- The value written by the last staged stock update for a product id, if
any: the batched update applies parameter sets in order, so the last one
wins. -/
def lastUpdate : List (Nat × ℚ) → Nat → Option ℚ
  | [], _ => none
  | u :: rest, pid =>
    match lastUpdate rest pid with
    | some v => some v
    | none => if u.1 = pid then some u.2 else none

/-- The quantity of the last cart line referencing the given product id. -/
def lastLineQty : List CartLine → Nat → Option ℚ
  | [], _ => none
  | l :: rest, pid =>
    match lastLineQty rest pid with
    | some q => some q
    | none => if l.product_id = pid then some l.quantity else none

/-- Summed quantity over all cart lines referencing the given product id. -/
def cartQtySum (cart : List CartLine) (pid : Nat) : ℚ :=
  ((cart.filter (fun l => l.product_id == pid)).map (·.quantity)).sum

/-- Summed quantity over the given sale line items referencing a product id. -/
def itemsQtySum (items : List CartItemRec) (pid : Nat) : ℚ :=
  ((items.filter (fun ci => ci.product_id == pid)).map (·.quantity)).sum

/-! ## Shop resolution (home/routes.py `get_shop_from_request`, lines 23-64) -/

structure ShopHomepageSettings where
  shop_id : Nat
  subdomain : Option String
  custom_domain : Option String
  is_active : Bool
  deriving DecidableEq, Repr

structure ShopRec where
  id : Nat
  slug : String
  is_active : Bool
  deriving DecidableEq, Repr

structure HomeDB where
  shops : List ShopRec
  settings : List ShopHomepageSettings
  deriving DecidableEq, Repr

/-- The parts of the inbound request that shop resolution reads: the Host
header and the `shop_id`/`shop_slug` query parameters. -/
structure HttpRequest where
  host : String
  shop_id : Option Nat
  shop_slug : Option String
  deriving DecidableEq, Repr

/-- The `shop_slug` query-parameter lookup (lines 58-62): an active shop by
slug. -/
def shopSlugParamShop (db : HomeDB) (param : Option String) : Option Nat :=
  match param with
  | none => none
  | some slug => (db.shops.find? (fun sh => sh.slug == slug && sh.is_active)).map (·.id)

/-- The last two fall-through sections of `get_shop_from_request`
(lines 50-62): the `shop_id` query parameter (its shop accepted only if it
has active homepage settings), falling through to the `shop_slug` lookup. -/
def shopIdThenSlug (db : HomeDB) : Option Nat → Option String → Option Nat
  | some sid, slug =>
    (match db.shops.find? (fun sh => sh.id == sid) with
      | some shop =>
        match db.settings.find? (fun s => s.shop_id == shop.id) with
        | some hs =>
          if hs.is_active then some shop.id else shopSlugParamShop db slug
        | none => shopSlugParamShop db slug
      | none => shopSlugParamShop db slug)
  | none, slug => shopSlugParamShop db slug

/-- `get_shop_from_request` (lines 23-64), with the source's early-return /
fall-through control flow: custom domain, then non-reserved subdomain, then
`shop_id` parameter (accepted only with active homepage settings), then
`shop_slug`.  Resolves to the shop's id. -/
def get_shop_from_request (db : HomeDB) (req : HttpRequest) : Option Nat :=
  match db.settings.find? (fun s => s.custom_domain == some req.host && s.is_active) with
  | some s => some s.shop_id
  | none =>
    match (if req.host.contains '.' then
            let subdomain := (req.host.splitOn ".").headD ""
            if subdomain = "www" ∨ subdomain = "app" ∨ subdomain = "admin" ∨ subdomain = "api" then
              none
            else
              db.settings.find? (fun s => s.subdomain == some subdomain && s.is_active)
          else none) with
    | some s => some s.shop_id
    | none => shopIdThenSlug db req.shop_id req.shop_slug

/-! Specification-side resolution, written from the claim's words: five
sources tried in strict order with first match winning. -/

/-- Source 1: active custom-domain match on the Host header. -/
def customDomainShop (db : HomeDB) (host : String) : Option Nat :=
  (db.settings.find? (fun s => s.custom_domain == some host && s.is_active)).map (·.shop_id)

/-- Source 2: if the host contains a dot and its leftmost label is not a
reserved label, an active subdomain match. -/
def subdomainShop (db : HomeDB) (host : String) : Option Nat :=
  if host.contains '.' then
    let subdomain := (host.splitOn ".").headD ""
    if subdomain = "www" ∨ subdomain = "app" ∨ subdomain = "admin" ∨ subdomain = "api" then
      none
    else
      (db.settings.find? (fun s => s.subdomain == some subdomain && s.is_active)).map (·.shop_id)
  else none

/-- Source 3: a `shop_id` query parameter, accepted only if the shop has
active homepage settings. -/
def shopIdParamShop (db : HomeDB) (param : Option Nat) : Option Nat :=
  match param with
  | none => none
  | some sid =>
    match db.shops.find? (fun sh => sh.id == sid) with
    | none => none
    | some shop =>
      match db.settings.find? (fun s => s.shop_id == shop.id) with
      | some hs => if hs.is_active then some shop.id else none
      | none => none

/-- First-match-wins composition. -/
def firstSome (a : Option Nat) (b : Option Nat) : Option Nat :=
  match a with
  | some x => some x
  | none => b

/-- Shop resolution as the claim words it: the four lookups in strict
priority order, first match winning, otherwise no shop. -/
def resolveShopSpec (db : HomeDB) (req : HttpRequest) : Option Nat :=
  firstSome (customDomainShop db req.host)
    (firstSome (subdomainShop db req.host)
      (firstSome (shopIdParamShop db req.shop_id)
        (shopSlugParamShop db req.shop_slug)))

/-! ## Tax-rate cache (services.py `TaxService.get_tax_rate`, lines 612-616)

`functools.lru_cache(maxsize=32)`: a bounded memoization cache keyed by the
argument tuple, most-recently-used first, evicting the least-recently-used
entry when a miss would exceed the capacity.  A lookup hit refreshes the
entry's recency. -/

/-- The body of `TaxService.get_tax_rate` (lines 614-616), also the body of
the Tax-model classmethod used by checkout: the shop's first active,
non-deleted tax record's rate, or 0.0. -/
def activeTaxRate (st : DBState) (shop_id : Nat) : ℚ :=
  match st.taxes.find? (fun t => t.shop_id == shop_id && t.is_active && !t.is_deleted) with
  | some t => t.rate
  | none => 0

structure LruCache where
  entries : List (Nat × ℚ)
  deriving DecidableEq, Repr

/-- One `lru_cache` lookup: on a hit, move the entry to the front; on a
miss, compute, insert at the front and truncate to the capacity (dropping
the least-recently-used tail entry when full). -/
def lruLookup (maxsize : Nat) (compute : Nat → ℚ) (c : LruCache) (k : Nat) :
    ℚ × LruCache :=
  match c.entries.find? (fun e => e.1 == k) with
  | some e => (e.2, ⟨(k, e.2) :: c.entries.filter (fun e2 => !(e2.1 == k))⟩)
  | none =>
    let v := compute k
    (v, ⟨((k, v) :: c.entries).take maxsize⟩)

/-- `TaxService.get_tax_rate` with its `@lru_cache(maxsize=32)` decorator:
the cached per-shop tax-rate lookup, threading the process-wide cache. -/
def TaxService.get_tax_rate (st : DBState) (c : LruCache) (shop_id : Nat) :
    ℚ × LruCache :=
  lruLookup 32 (activeTaxRate st) c shop_id

/-! ## Daily sales summary (services.py `get_daily_sales_summary`, lines 350-406) -/

/-- Names bound at module level in services.py when `get_daily_sales_summary`
runs: the imports at lines 1-18 plus the module-level definitions.  Notably
`timedelta` is absent — line 2 imports only `datetime` from the `datetime`
module. -/
def saleServicesModuleNames : List String :=
  ["current_user", "datetime", "Decimal", "ROUND_UP", "List", "Dict", "Optional",
   "request", "session", "db", "socketio", "ProductRepository", "CategoryRepository",
   "SaleRepository", "Shop", "Sale", "CartItem", "Category", "Product", "Tax",
   "SaleStatus", "bindparam", "PricingUtil", "threading", "joinedload",
   "with_loader_criteria", "get_kenya_today_range", "and_", "func", "case",
   "logging", "traceback", "lru_cache", "logger", "run_checkout_tasks",
   "SalesService", "ReceiptService", "ProductService", "CategoryService",
   "PaymentService", "TaxService"]

inductive PyError
  | nameError (n : String)
  deriving DecidableEq, Repr

structure DailySummaryRow where
  date : Nat
  count : Nat
  total : ℚ
  deriving DecidableEq, Repr

structure ModeBreakdownEntry where
  total : ℚ
  count : Nat
  deriving DecidableEq, Repr

structure DailySummary where
  daily_summary : List DailySummaryRow
  pay_now : ModeBreakdownEntry
  pay_later : ModeBreakdownEntry
  deriving DecidableEq, Repr

/-- `SalesService.get_daily_sales_summary`.  Its first statement evaluates
`datetime.utcnow() - timedelta(days=days)` (line 353); `timedelta` is looked
up among the module's bound names, is not found (line 2 imports only
`datetime`), and the call raises `NameError: name 'timedelta' is not defined`
before any query runs.  The branch guarded by the name being bound embeds the
queries of lines 355-406 (per-day count/total newest day first, and the
`is_paid` breakdown labelled `pay_now`/`pay_later`). -/
def get_daily_sales_summary (st : DBState) (shop_id : Nat) (days : Nat) :
    Except PyError DailySummary :=
  if "timedelta" ∈ saleServicesModuleNames then
    let date_threshold := st.now - days
    let inWindow := st.sales.filter
      (fun s => s.shop_id == shop_id && decide (date_threshold ≤ s.date))
    let dayList := ((inWindow.map (·.date)).dedup).mergeSort (fun a b => decide (b ≤ a))
    let rows := dayList.map (fun d =>
      { date := d,
        count := (inWindow.filter (fun s => s.date == d)).length,
        total := ((inWindow.filter (fun s => s.date == d)).map (·.total)).sum })
    let paid := inWindow.filter (·.is_paid)
    let unpaid := inWindow.filter (fun s => !s.is_paid)
    Except.ok
      { daily_summary := rows,
        pay_now := { total := (paid.map (·.total)).sum, count := paid.length },
        pay_later := { total := (unpaid.map (·.total)).sum, count := unpaid.length } }
  else Except.error (PyError.nameError "timedelta")

/-! ## Concrete example rows and states used by witnesses and counterexamples -/

def exProduct : Product :=
  { id := 1, shop_id := 1, name := "Maize Flour", stock := 10, cost_price := 2 }

def exState : DBState :=
  { products := [exProduct], sales := [], cart_items := [], taxes := [],
    next_sale_id := 7, now := 100 }

/-- A cart naming the same product on two lines (quantity 4 each). -/
def dupCart : List CartLine := [⟨1, 4, 10⟩, ⟨1, 4, 10⟩]

def exCustomer : CustomerData := { name := some "Alice", phone := none, notes := none }

def exShop1 : ShopRec := { id := 1, slug := "shop1", is_active := true }

def exShop2 : ShopRec := { id := 2, slug := "shoptwo", is_active := true }

def exSettings1 : ShopHomepageSettings :=
  { shop_id := 1, subdomain := some "shop1", custom_domain := some "shop1.com", is_active := true }

def exSettings2 : ShopHomepageSettings :=
  { shop_id := 2, subdomain := some "shoptwo", custom_domain := none, is_active := true }

/-- Two shops, both with active homepage settings; shop 1 owns the custom
domain `shop1.com`. -/
def exHomeDB : HomeDB := { shops := [exShop1, exShop2], settings := [exSettings1, exSettings2] }

/-- One active shop with slug `shop1` and no homepage settings at all. -/
def exHomeDB2 : HomeDB := { shops := [exShop1], settings := [] }

end Bhat

namespace Bhat

/-! ### Helper lemmas about lookups, stock updates and staging -/

lemma productMapGet_eq_some {ps : List Product} {pid : Nat} {p : Product}
    (h : productMapGet ps pid = some p) : p ∈ ps ∧ p.id = pid := by
  unfold productMapGet at h
  constructor
  · exact List.mem_reverse.mp (List.mem_of_find?_eq_some h)
  · simpa using List.find?_some h

lemma get_bulk_mem {st : DBState} {ids : List Nat} {sid : Nat} {p : Product}
    (h : p ∈ ProductRepository.get_bulk_for_sale st ids sid) :
    p ∈ st.products ∧ p.id ∈ ids ∧ p.shop_id = sid := by
  unfold ProductRepository.get_bulk_for_sale at h
  have h2 := List.mem_filter.mp h
  have h3 := of_decide_eq_true h2.2
  exact ⟨h2.1, h3.1, h3.2⟩

lemma checkoutProductMap_eq_some {st : DBState} {sid : Nat} {cart : List CartLine}
    {pid : Nat} {p : Product} (h : checkoutProductMap st sid cart pid = some p) :
    p ∈ st.products ∧ p.id = pid ∧ p.shop_id = sid := by
  unfold checkoutProductMap at h
  obtain ⟨hmem, hid⟩ := productMapGet_eq_some h
  obtain ⟨hst, _, hshop⟩ := get_bulk_mem hmem
  exact ⟨hst, hid, hshop⟩

lemma find_id_cons (x : Product) (t : List Product) (pid : Nat) :
    (x :: t).find? (fun q => q.id == pid) =
      if x.id = pid then some x else t.find? (fun q => q.id == pid) := by
  by_cases h : x.id = pid
  · simp [h]
  · simp [h]

lemma find_id_of_nodup {ps : List Product} {p : Product} {pid : Nat}
    (hn : (ps.map (·.id)).Nodup) (hm : p ∈ ps) (hid : p.id = pid) :
    ps.find? (fun q => q.id == pid) = some p := by
  induction ps with
  | nil => cases hm
  | cons a t ih =>
    rw [List.map_cons, List.nodup_cons] at hn
    rw [find_id_cons]
    rcases List.mem_cons.mp hm with heq | hmem
    · subst heq
      rw [if_pos hid]
    · have hne : ¬ (a.id = pid) := by
        intro hall
        exact hn.1 (by rw [hall, ← hid]; exact List.mem_map_of_mem (·.id) hmem)
      rw [if_neg hne]
      exact ih hn.2 hmem

lemma stockOf_eq_of_nodup {ps : List Product} {p : Product} {pid : Nat}
    (hn : (ps.map (·.id)).Nodup) (hm : p ∈ ps) (hid : p.id = pid) :
    stockOf ps pid = some p.stock := by
  unfold stockOf
  rw [find_id_of_nodup hn hm hid]
  rfl

lemma stockOf_cons (x : Product) (t : List Product) (pid : Nat) :
    stockOf (x :: t) pid = if x.id = pid then some x.stock else stockOf t pid := by
  unfold stockOf
  rw [find_id_cons]
  by_cases h : x.id = pid
  · rw [if_pos h, if_pos h]
    rfl
  · rw [if_neg h, if_neg h]

lemma applyStockUpdate_cons (x : Product) (t : List Product) (u : Nat × ℚ) :
    applyStockUpdate (x :: t) u =
      (if x.id = u.1 then { x with stock := u.2 } else x) :: applyStockUpdate t u := rfl

lemma applyStockUpdate_head_id (x : Product) (u : Nat × ℚ) :
    (if x.id = u.1 then ({ x with stock := u.2 } : Product) else x).id = x.id := by
  split <;> rfl

lemma stockOf_applyStockUpdate (ps : List Product) (u : Nat × ℚ) (pid : Nat) :
    stockOf (applyStockUpdate ps u) pid =
      if pid = u.1 then (stockOf ps pid).map (fun _ => u.2) else stockOf ps pid := by
  induction ps with
  | nil => simp [stockOf, applyStockUpdate, ite_self]
  | cons x t ih =>
    rw [applyStockUpdate_cons, stockOf_cons, stockOf_cons, applyStockUpdate_head_id]
    by_cases ha : x.id = pid
    · rw [if_pos ha, if_pos ha]
      by_cases hc : pid = u.1
      · rw [if_pos hc, if_pos (ha.trans hc)]
        rfl
      · rw [if_neg hc, if_neg (fun hh => hc (ha.symm.trans hh))]
    · rw [if_neg ha, if_neg ha, ih]

lemma lastUpdate_cons (u : Nat × ℚ) (rest : List (Nat × ℚ)) (pid : Nat) :
    lastUpdate (u :: rest) pid =
      match lastUpdate rest pid with
      | some v => some v
      | none => if u.1 = pid then some u.2 else none := rfl

lemma stockOf_applyStockUpdates (upds : List (Nat × ℚ)) :
    ∀ (ps : List Product) (pid : Nat),
      stockOf (applyStockUpdates ps upds) pid =
        match lastUpdate upds pid with
        | some v => (stockOf ps pid).map (fun _ => v)
        | none => stockOf ps pid := by
  induction upds with
  | nil => intro ps pid; rfl
  | cons u rest ih =>
    intro ps pid
    have hstep : applyStockUpdates ps (u :: rest) = applyStockUpdates (applyStockUpdate ps u) rest := rfl
    rw [hstep, ih, lastUpdate_cons]
    cases hlu : lastUpdate rest pid with
    | none =>
      rw [stockOf_applyStockUpdate]
      by_cases h : u.1 = pid
      · rw [if_pos h, if_pos h.symm]
      · rw [if_neg h, if_neg (fun hh => h hh.symm)]
    | some v =>
      rw [stockOf_applyStockUpdate]
      by_cases h : pid = u.1
      · rw [if_pos h]
        cases stockOf ps pid <;> rfl
      · rw [if_neg h]

lemma stageItems_cons_ok {pm : Nat → Option Product} {pn : Bool} {sid : Nat}
    {l : CartLine} {rest : List CartLine} {staged : List CartItemRec}
    {S C : ℚ} {upds : List (Nat × ℚ)}
    (h : stageItems pm pn sid (l :: rest) = Except.ok (staged, S, C, upds)) :
    ∃ p items sub cost us,
      pm l.product_id = some p ∧
      ¬(pn = true ∧ p.stock < l.quantity) ∧
      stageItems pm pn sid rest = Except.ok (items, sub, cost, us) ∧
      staged = { sale_id := 0, shop_id := sid, product_id := p.id,
                 quantity := l.quantity, unit_price := l.price,
                 total_price := round_up_to_nearest_five (l.quantity * l.price) } :: items ∧
      S = round_up_to_nearest_five (l.quantity * l.price) + sub ∧
      C = l.quantity * p.cost_price + cost ∧
      upds = (if pn then [(p.id, p.stock - l.quantity)] else []) ++ us := by
  unfold stageItems at h
  cases hpm : pm l.product_id with
  | none =>
    simp only [hpm] at h
    simp at h
  | some p =>
    simp only [hpm] at h
    by_cases hs : pn = true ∧ p.stock < l.quantity
    · rw [if_pos hs] at h
      simp at h
    · rw [if_neg hs] at h
      cases hrest : stageItems pm pn sid rest with
      | error e =>
        simp only [hrest] at h
        simp at h
      | ok tup =>
        obtain ⟨items, sub, cost, us⟩ := tup
        simp only [hrest] at h
        simp only [Except.ok.injEq, Prod.mk.injEq] at h
        obtain ⟨h1, h2, h3, h4⟩ := h
        exact ⟨p, items, sub, cost, us, rfl, hs, rfl, h1.symm, h2.symm, h3.symm, h4.symm⟩

lemma stageItems_nil_ok {pm : Nat → Option Product} {pn : Bool} {sid : Nat}
    {staged : List CartItemRec} {S C : ℚ} {upds : List (Nat × ℚ)}
    (h : stageItems pm pn sid [] = Except.ok (staged, S, C, upds)) :
    staged = [] ∧ S = 0 ∧ C = 0 ∧ upds = [] := by
  unfold stageItems at h
  simp only [Except.ok.injEq, Prod.mk.injEq] at h
  obtain ⟨h1, h2, h3, h4⟩ := h
  exact ⟨h1.symm, h2.symm, h3.symm, h4.symm⟩

lemma stageItems_error_of_missing {pm : Nat → Option Product} {pn : Bool} {sid : Nat} :
    ∀ (lines : List CartLine), (∃ l ∈ lines, pm l.product_id = none) →
      ∃ e, stageItems pm pn sid lines = Except.error e := by
  intro lines
  induction lines with
  | nil =>
    rintro ⟨l, hl, _⟩
    cases hl
  | cons a t ih =>
    rintro ⟨l, hl, hnone⟩
    cases hpm : pm a.product_id with
    | none =>
      refine ⟨CheckoutError.productNotFound a.product_id, ?_⟩
      unfold stageItems
      simp only [hpm]
    | some p =>
      have hmem : l ∈ t := by
        rcases List.mem_cons.mp hl with heq | hmem
        · subst heq; rw [hpm] at hnone; cases hnone
        · exact hmem
      by_cases hs : pn = true ∧ p.stock < a.quantity
      · refine ⟨CheckoutError.insufficientStock p.name, ?_⟩
        unfold stageItems
        simp only [hpm]
        rw [if_pos hs]
      · obtain ⟨e, he⟩ := ih ⟨l, hmem, hnone⟩
        refine ⟨e, ?_⟩
        unfold stageItems
        simp only [hpm]
        rw [if_neg hs]
        simp only [he]

lemma stageItems_error_of_insufficient {pm : Nat → Option Product} {sid : Nat} :
    ∀ (lines : List CartLine),
      (∀ l ∈ lines, ∃ p, pm l.product_id = some p) →
      (∃ l ∈ lines, ∃ p, pm l.product_id = some p ∧ p.stock < l.quantity) →
      ∃ n, stageItems pm true sid lines = Except.error (CheckoutError.insufficientStock n) := by
  intro lines
  induction lines with
  | nil =>
    rintro _ ⟨l, hl, _⟩
    cases hl
  | cons a t ih =>
    rintro hall ⟨l, hl, p, hp, hlt⟩
    obtain ⟨pa, hpa⟩ := hall a (List.mem_cons_self a t)
    by_cases hs : pa.stock < a.quantity
    · refine ⟨pa.name, ?_⟩
      unfold stageItems
      simp only [hpa]
      rw [if_pos (⟨trivial, hs⟩ : True ∧ pa.stock < a.quantity)]
    · have hmem : l ∈ t := by
        rcases List.mem_cons.mp hl with heq | hmem
        · subst heq
          rw [hpa] at hp
          cases hp
          exact absurd hlt hs
        · exact hmem
      obtain ⟨n, hn⟩ := ih (fun l2 hl2 => hall l2 (List.mem_cons_of_mem a hl2)) ⟨l, hmem, p, hp, hlt⟩
      refine ⟨n, ?_⟩
      unfold stageItems
      simp only [hpa]
      rw [if_neg (fun (hh : True ∧ pa.stock < a.quantity) => hs hh.2)]
      simp only [hn]

lemma stageItems_ok_mem {pm : Nat → Option Product} {pn : Bool} {sid : Nat} :
    ∀ {lines : List CartLine} {staged : List CartItemRec} {S C : ℚ} {upds : List (Nat × ℚ)},
      stageItems pm pn sid lines = Except.ok (staged, S, C, upds) →
      ∀ l ∈ lines, ∃ p, pm l.product_id = some p ∧ ¬(pn = true ∧ p.stock < l.quantity) := by
  intro lines
  induction lines with
  | nil =>
    intro staged S C upds _ l hl
    cases hl
  | cons a t ih =>
    intro staged S C upds h l hl
    obtain ⟨p, items, sub, cost, us, hpm, hs, hrest, _⟩ := stageItems_cons_ok h
    rcases List.mem_cons.mp hl with heq | hmem
    · subst heq
      exact ⟨p, hpm, hs⟩
    · exact ih hrest l hmem

lemma stageItems_payNow_forall2 {pm : Nat → Option Product} {sid : Nat} :
    ∀ {lines : List CartLine} {staged : List CartItemRec} {S C : ℚ} {upds : List (Nat × ℚ)},
      stageItems pm true sid lines = Except.ok (staged, S, C, upds) →
      List.Forall₂ (fun (l : CartLine) (u : Nat × ℚ) =>
        ∃ p, pm l.product_id = some p ∧ ¬(p.stock < l.quantity) ∧
          u = (p.id, p.stock - l.quantity)) lines upds := by
  intro lines
  induction lines with
  | nil =>
    intro staged S C upds h
    obtain ⟨_, _, _, h4⟩ := stageItems_nil_ok h
    rw [h4]
    exact List.Forall₂.nil
  | cons a t ih =>
    intro staged S C upds h
    obtain ⟨p, items, sub, cost, us, hpm, hs, hrest, _, _, _, hupds⟩ := stageItems_cons_ok h
    subst hupds
    have hred : ((if (true : Bool) then [(p.id, p.stock - a.quantity)] else []) ++ us)
        = (p.id, p.stock - a.quantity) :: us := rfl
    rw [hred]
    exact List.Forall₂.cons ⟨p, hpm, fun hlt => hs ⟨rfl, hlt⟩, rfl⟩ (ih hrest)

lemma stageItems_payLater_upds {pm : Nat → Option Product} {sid : Nat} :
    ∀ {lines : List CartLine} {staged : List CartItemRec} {S C : ℚ} {upds : List (Nat × ℚ)},
      stageItems pm false sid lines = Except.ok (staged, S, C, upds) → upds = [] := by
  intro lines
  induction lines with
  | nil =>
    intro staged S C upds h
    exact (stageItems_nil_ok h).2.2.2
  | cons a t ih =>
    intro staged S C upds h
    obtain ⟨p, items, sub, cost, us, _, _, hrest, _, _, _, hupds⟩ := stageItems_cons_ok h
    subst hupds
    exact ih hrest

lemma forall2_mem_right {R : CartLine → (Nat × ℚ) → Prop} :
    ∀ {lines : List CartLine} {upds : List (Nat × ℚ)},
      List.Forall₂ R lines upds → ∀ u ∈ upds, ∃ l ∈ lines, R l u := by
  intro lines upds h
  induction h with
  | nil =>
    intro u hu
    cases hu
  | cons hr _ ih =>
    intro u hu
    rcases List.mem_cons.mp hu with heq | hmem
    · subst heq
      exact ⟨_, List.mem_cons_self _ _, hr⟩
    · obtain ⟨l, hl, hR⟩ := ih u hmem
      exact ⟨l, List.mem_cons_of_mem _ hl, hR⟩

lemma lastLineQty_cons (l : CartLine) (rest : List CartLine) (pid : Nat) :
    lastLineQty (l :: rest) pid =
      match lastLineQty rest pid with
      | some q => some q
      | none => if l.product_id = pid then some l.quantity else none := rfl

lemma lastLineQty_eq_none {lines : List CartLine} {pid : Nat}
    (h : pid ∉ lines.map (·.product_id)) : lastLineQty lines pid = none := by
  induction lines with
  | nil => rfl
  | cons a t ih =>
    rw [List.map_cons, List.mem_cons] at h
    push_neg at h
    rw [lastLineQty_cons, ih h.2]
    rw [if_neg (fun hh => h.1 hh.symm)]

lemma lastLineQty_nodup {lines : List CartLine} {l : CartLine}
    (hn : (lines.map (·.product_id)).Nodup) (hm : l ∈ lines) :
    lastLineQty lines l.product_id = some l.quantity := by
  induction lines with
  | nil => cases hm
  | cons a t ih =>
    rw [List.map_cons, List.nodup_cons] at hn
    rw [lastLineQty_cons]
    rcases List.mem_cons.mp hm with heq | hmem
    · subst heq
      rw [lastLineQty_eq_none hn.1, if_pos rfl]
    · rw [ih hn.2 hmem]

lemma filter_pid_nil {lines : List CartLine} {pid : Nat}
    (h : pid ∉ lines.map (·.product_id)) :
    lines.filter (fun l => l.product_id == pid) = [] := by
  induction lines with
  | nil => rfl
  | cons a t ih =>
    rw [List.map_cons, List.mem_cons] at h
    push_neg at h
    rw [List.filter_cons_of_neg (by simp only [beq_iff_eq]; exact fun hh => h.1 hh.symm), ih h.2]

lemma cartQtySum_nodup {lines : List CartLine} {l : CartLine}
    (hn : (lines.map (·.product_id)).Nodup) (hm : l ∈ lines) :
    cartQtySum lines l.product_id = l.quantity := by
  induction lines with
  | nil => cases hm
  | cons a t ih =>
    rw [List.map_cons, List.nodup_cons] at hn
    rcases List.mem_cons.mp hm with heq | hmem
    · subst heq
      unfold cartQtySum
      rw [List.filter_cons_of_pos (by simp), filter_pid_nil hn.1]
      simp
    · have hne : ¬ (a.product_id = l.product_id) := by
        intro hall
        exact hn.1 (by rw [hall]; exact List.mem_map_of_mem (·.product_id) hmem)
      unfold cartQtySum at *
      rw [List.filter_cons_of_neg (by simp [hne])]
      exact ih hn.2 hmem

lemma lastUpdate_none_of_forall2 {pm : Nat → Option Product}
    (hid : ∀ pid p, pm pid = some p → p.id = pid)
    {lines : List CartLine} {upds : List (Nat × ℚ)}
    (h2 : List.Forall₂ (fun (l : CartLine) (u : Nat × ℚ) =>
      ∃ p, pm l.product_id = some p ∧ ¬(p.stock < l.quantity) ∧
        u = (p.id, p.stock - l.quantity)) lines upds)
    {pid : Nat} (hl : lastLineQty lines pid = none) :
    lastUpdate upds pid = none := by
  induction h2 with
  | nil => rfl
  | @cons a u as us hr hrest ih =>
    rw [lastLineQty_cons] at hl
    cases hq : lastLineQty as pid with
    | some q => rw [hq] at hl; simp at hl
    | none =>
      rw [hq] at hl
      simp only [] at hl
      have ha : ¬ (a.product_id = pid) := by
        intro hh
        rw [if_pos hh] at hl
        cases hl
      obtain ⟨p, hp, _, hu⟩ := hr
      rw [lastUpdate_cons, ih hq]
      have : ¬ (u.1 = pid) := by
        rw [hu]
        intro hh
        exact ha ((hid _ p hp).symm.trans hh)
      rw [if_neg this]

lemma lastUpdate_some_of_forall2 {pm : Nat → Option Product}
    (hid : ∀ pid p, pm pid = some p → p.id = pid)
    {lines : List CartLine} {upds : List (Nat × ℚ)}
    (h2 : List.Forall₂ (fun (l : CartLine) (u : Nat × ℚ) =>
      ∃ p, pm l.product_id = some p ∧ ¬(p.stock < l.quantity) ∧
        u = (p.id, p.stock - l.quantity)) lines upds)
    {pid : Nat} {q : ℚ} (hl : lastLineQty lines pid = some q) :
    ∃ p, pm pid = some p ∧ lastUpdate upds pid = some (p.stock - q) := by
  induction h2 with
  | nil => cases hl
  | @cons a u as us hr hrest ih =>
    rw [lastLineQty_cons] at hl
    cases hq : lastLineQty as pid with
    | some q2 =>
      rw [hq] at hl
      simp only [Option.some.injEq] at hl
      subst hl
      obtain ⟨p, hp, hu⟩ := ih hq
      rw [lastUpdate_cons, hu]
      exact ⟨p, hp, rfl⟩
    | none =>
      rw [hq] at hl
      simp only [] at hl
      by_cases ha : a.product_id = pid
      · rw [if_pos ha] at hl
        simp only [Option.some.injEq] at hl
        obtain ⟨p, hp, _, hu⟩ := hr
        rw [lastUpdate_cons, lastUpdate_none_of_forall2 hid hrest hq]
        have hu1 : u.1 = pid := by
          rw [hu]
          exact (hid _ p hp).trans ha
        rw [if_pos hu1]
        refine ⟨p, by rw [← ha]; exact hp, ?_⟩
        rw [hu, ← hl]
      · rw [if_neg ha] at hl
        cases hl

lemma processCheckout_error_state {st : DBState} {sid uid : Nat} {cart : List CartLine}
    {mode : String} {method : Option String} {cust : Option CustomerData} {e : CheckoutError}
    (h : (processCheckout st sid uid cart mode method cust).2 = Except.error e) :
    (processCheckout st sid uid cart mode method cust).1 = st := by
  unfold processCheckout at h ⊢
  by_cases hc : cart = []
  · rw [if_pos hc]
  · rw [if_neg hc] at h ⊢
    cases hv : checkoutValidate mode method cust with
    | error e2 => simp only [hv]
    | ok m =>
      simp only [hv] at h ⊢
      cases hs : stageItems (checkoutProductMap st sid cart) (decide (mode = "pay_now")) sid cart with
      | error e2 => simp only [hs]
      | ok tup =>
        obtain ⟨staged, S, C, upds⟩ := tup
        simp only [hs] at h
        simp at h

lemma processCheckout_ok_inv {st : DBState} {sid uid : Nat} {cart : List CartLine}
    {mode : String} {method : Option String} {cust : Option CustomerData}
    {st2 : DBState} {r : CheckoutResult}
    (h : processCheckout st sid uid cart mode method cust = (st2, Except.ok r)) :
    ∃ m staged S C upds,
      cart ≠ [] ∧
      checkoutValidate mode method cust = Except.ok m ∧
      stageItems (checkoutProductMap st sid cart) (decide (mode = "pay_now")) sid cart
        = Except.ok (staged, S, C, upds) ∧
      st2 = (commitCheckout st sid uid mode m cust staged S C upds).1 ∧
      r = (commitCheckout st sid uid mode m cust staged S C upds).2 := by
  unfold processCheckout at h
  by_cases hc : cart = []
  · rw [if_pos hc] at h
    simp at h
  · rw [if_neg hc] at h
    cases hv : checkoutValidate mode method cust with
    | error e => simp only [hv] at h; simp at h
    | ok m =>
      simp only [hv] at h
      cases hs : stageItems (checkoutProductMap st sid cart) (decide (mode = "pay_now")) sid cart with
      | error e => simp only [hs] at h; simp at h
      | ok tup =>
        obtain ⟨staged, S, C, upds⟩ := tup
        simp only [hs] at h
        have h1 := congrArg Prod.fst h
        have h2 := congrArg Prod.snd h
        simp only [Prod.fst, Prod.snd] at h1 h2
        simp only [Except.ok.injEq] at h2
        exact ⟨m, staged, S, C, upds, hc, rfl, rfl, h1.symm, h2.symm⟩

lemma checkoutValidate_payNow {method : Option String} {cust : Option CustomerData}
    {m : String} (h : checkoutValidate "pay_now" method cust = Except.ok m) :
    method = some m ∧ (m = "cash" ∨ m = "mobile") := by
  unfold checkoutValidate at h
  rw [if_pos rfl] at h
  cases method with
  | none => simp at h
  | some mm =>
    have h2 : (if mm = "cash" ∨ mm = "mobile" then Except.ok mm
        else Except.error (CheckoutError.invalidMethodForPayNow (some mm))) = Except.ok m := h
    by_cases hm : mm = "cash" ∨ mm = "mobile"
    · rw [if_pos hm] at h2
      simp only [Except.ok.injEq] at h2
      subst h2
      exact ⟨rfl, hm⟩
    · rw [if_neg hm] at h2
      simp at h2

lemma checkoutValidate_payLater {method : Option String} {cust : Option CustomerData}
    {m : String} (h : checkoutValidate "pay_later" method cust = Except.ok m) :
    m = "pay_on_delivery" ∧ ∃ cd, cust = some cd ∧ pyTruthy cd.name = true := by
  unfold checkoutValidate at h
  rw [if_neg (by decide), if_pos rfl] at h
  by_cases ht : pyTruthy method = true ∧ method ≠ some "pay_on_delivery"
  · rw [if_pos ht] at h
    simp at h
  · rw [if_neg ht] at h
    cases cust with
    | none => simp at h
    | some cd =>
      have h2 : (if pyTruthy cd.name = true then Except.ok "pay_on_delivery"
          else Except.error CheckoutError.customerNameRequired) = Except.ok m := h
      by_cases hn : pyTruthy cd.name = true
      · rw [if_pos hn] at h2
        simp only [Except.ok.injEq] at h2
        exact ⟨h2.symm, cd, rfl, hn⟩
      · rw [if_neg hn] at h2
        simp at h2

lemma checkoutValidate_mode {mode : String} {method : Option String}
    {cust : Option CustomerData} {m : String}
    (h : checkoutValidate mode method cust = Except.ok m) :
    mode = "pay_now" ∨ mode = "pay_later" := by
  unfold checkoutValidate at h
  by_cases h1 : mode = "pay_now"
  · exact Or.inl h1
  · rw [if_neg h1] at h
    by_cases h2 : mode = "pay_later"
    · exact Or.inr h2
    · rw [if_neg h2] at h
      simp at h

lemma decrementStock_stock :
    ∀ (items : List CartItemRec) (ps ps2 : List Product),
      decrementStock ps items = Except.ok ps2 →
      ∀ pid, stockOf ps2 pid =
        match stockOf ps pid with
        | some s => some (s - itemsQtySum items pid)
        | none => none := by
  intro items
  induction items with
  | nil =>
    intro ps ps2 h pid
    unfold decrementStock at h
    simp only [Except.ok.injEq] at h
    subst h
    unfold itemsQtySum
    cases hs : stockOf ps pid with
    | none => rfl
    | some s => simp
  | cons ci rest ih =>
    intro ps ps2 h pid
    unfold decrementStock at h
    cases hf : ps.find? (fun p => p.id == ci.product_id) with
    | none =>
      rw [hf] at h
      simp at h
    | some product =>
      rw [hf] at h
      have h3 : (if product.stock < ci.quantity
          then Except.error (CheckoutError.insufficientStock product.name)
          else decrementStock (applyStockUpdate ps (product.id, product.stock - ci.quantity)) rest)
          = Except.ok ps2 := h
      by_cases hlt : product.stock < ci.quantity
      · rw [if_pos hlt] at h3
        simp at h3
      · rw [if_neg hlt] at h3
        have h := h3
        have hpid : product.id = ci.product_id := by simpa using List.find?_some hf
        have hcur : stockOf ps ci.product_id = some product.stock := by
          unfold stockOf
          rw [hf]
          rfl
        have ihh := ih _ _ h pid
        rw [ihh, stockOf_applyStockUpdate]
        by_cases hp : pid = ci.product_id
        · subst hp
          rw [if_pos hpid.symm, hcur]
          unfold itemsQtySum
          rw [List.filter_cons_of_pos (by simp)]
          simp only [List.map_cons, List.sum_cons, Option.map_some']
          rw [Option.some.injEq]
          ring
        · have hne2 : ¬ (pid = (product.id, product.stock - ci.quantity).1) := by
            exact fun hh => hp (by rw [hh]; exact hpid)
          rw [if_neg hne2]
          unfold itemsQtySum
          rw [List.filter_cons_of_neg (by simp only [beq_iff_eq]; exact fun hh => hp hh.symm)]

lemma decrementStock_nonneg :
    ∀ (items : List CartItemRec) (ps ps2 : List Product),
      decrementStock ps items = Except.ok ps2 →
      (∀ p ∈ ps, 0 ≤ p.stock) → ∀ p ∈ ps2, 0 ≤ p.stock := by
  intro items
  induction items with
  | nil =>
    intro ps ps2 h hpos
    unfold decrementStock at h
    simp only [Except.ok.injEq] at h
    subst h
    exact hpos
  | cons ci rest ih =>
    intro ps ps2 h hpos
    unfold decrementStock at h
    cases hf : ps.find? (fun p => p.id == ci.product_id) with
    | none =>
      rw [hf] at h
      simp at h
    | some product =>
      rw [hf] at h
      have h3 : (if product.stock < ci.quantity
          then Except.error (CheckoutError.insufficientStock product.name)
          else decrementStock (applyStockUpdate ps (product.id, product.stock - ci.quantity)) rest)
          = Except.ok ps2 := h
      by_cases hlt : product.stock < ci.quantity
      · rw [if_pos hlt] at h3
        simp at h3
      · rw [if_neg hlt] at h3
        refine ih _ _ h3 ?_
        intro p hp
        unfold applyStockUpdate at hp
        obtain ⟨p0, hp0, hmap⟩ := List.mem_map.mp hp
        by_cases hid : p0.id = (product.id, product.stock - ci.quantity).1
        · rw [if_pos hid] at hmap
          rw [← hmap]
          show 0 ≤ product.stock - ci.quantity
          have hle := le_of_not_lt hlt
          linarith
        · rw [if_neg hid] at hmap
          rw [← hmap]
          exact hpos p0 hp0

lemma applyStockUpdates_nonneg :
    ∀ (upds : List (Nat × ℚ)) (ps : List Product),
      (∀ u ∈ upds, 0 ≤ u.2) → (∀ p ∈ ps, 0 ≤ p.stock) →
      ∀ p ∈ applyStockUpdates ps upds, 0 ≤ p.stock := by
  intro upds
  induction upds with
  | nil => intro ps _ hpos; exact hpos
  | cons u rest ih =>
    intro ps hu hpos
    have hstep : applyStockUpdates ps (u :: rest) = applyStockUpdates (applyStockUpdate ps u) rest := rfl
    rw [hstep]
    refine ih _ (fun u2 hu2 => hu u2 (List.mem_cons_of_mem u hu2)) ?_
    intro p hp
    unfold applyStockUpdate at hp
    obtain ⟨p0, hp0, hmap⟩ := List.mem_map.mp hp
    by_cases hid : p0.id = u.1
    · rw [if_pos hid] at hmap
      rw [← hmap]
      exact hu u (List.mem_cons_self u rest)
    · rw [if_neg hid] at hmap
      rw [← hmap]
      exact hpos p0 hp0

lemma stageItems_upds_nonneg {pm : Nat → Option Product} {pn : Bool} {sid : Nat}
    {lines : List CartLine} {staged : List CartItemRec} {S C : ℚ} {upds : List (Nat × ℚ)}
    (h : stageItems pm pn sid lines = Except.ok (staged, S, C, upds)) :
    ∀ u ∈ upds, 0 ≤ u.2 := by
  cases pn with
  | false =>
    rw [stageItems_payLater_upds h]
    intro u hu
    cases hu
  | true =>
    have hf2 := stageItems_payNow_forall2 h
    intro u hu
    obtain ⟨l, _, p, _, hns, hu2⟩ := forall2_mem_right hf2 u hu
    rw [hu2]
    show 0 ≤ p.stock - l.quantity
    have hle := le_of_not_lt hns
    linarith

lemma commitCheckout_products (st : DBState) (sid uid : Nat) (mode m : String)
    (cust : Option CustomerData) (staged : List CartItemRec) (S C : ℚ)
    (upds : List (Nat × ℚ)) :
    (commitCheckout st sid uid mode m cust staged S C upds).1.products
      = applyStockUpdates st.products upds := rfl

lemma commitCheckout_sales (st : DBState) (sid uid : Nat) (mode m : String)
    (cust : Option CustomerData) (staged : List CartItemRec) (S C : ℚ)
    (upds : List (Nat × ℚ)) :
    (commitCheckout st sid uid mode m cust staged S C upds).1.sales
      = st.sales ++ [checkoutSale st sid uid mode m cust S C] := rfl

lemma complete_error_state {st : DBState} {sale_id shop_id : Nat} {method : String}
    {e : CheckoutError}
    (h : (complete_pay_later_sale st sale_id shop_id method).2 = Except.error e) :
    (complete_pay_later_sale st sale_id shop_id method).1 = st := by
  unfold complete_pay_later_sale at h ⊢
  by_cases hm : ¬(method = "cash" ∨ method = "mobile")
  · rw [if_pos hm]
  · rw [if_neg hm] at h ⊢
    cases hsale : SaleRepository.get_sale_with_items st sale_id shop_id with
    | none => simp only [hsale]
    | some sale =>
      simp only [hsale] at h ⊢
      by_cases hp : sale.is_paid = true
      · rw [if_pos hp]
      · rw [if_neg hp] at h ⊢
        by_cases hpod : sale.payment_method ≠ "pay_on_delivery"
        · rw [if_pos hpod]
        · rw [if_neg hpod] at h ⊢
          cases hdec : decrementStock st.products (st.cart_items.filter (fun ci => ci.sale_id == sale_id)) with
          | error e2 => simp only [hdec]
          | ok products2 =>
            simp only [hdec] at h
            simp at h

lemma complete_ok_inv {st : DBState} {sale_id shop_id : Nat} {method : String}
    {st2 : DBState} {r : CompleteResult}
    (h : complete_pay_later_sale st sale_id shop_id method = (st2, Except.ok r)) :
    ∃ sale products2,
      (method = "cash" ∨ method = "mobile") ∧
      SaleRepository.get_sale_with_items st sale_id shop_id = some sale ∧
      sale.is_paid = false ∧
      sale.payment_method = "pay_on_delivery" ∧
      decrementStock st.products (st.cart_items.filter (fun ci => ci.sale_id == sale_id))
        = Except.ok products2 ∧
      st2.products = products2 ∧
      st2.sales = st.sales.map (fun s =>
        if s.id = sale_id ∧ s.shop_id = shop_id
        then { sale with is_paid := true, status := SaleStatus.completed,
                         payment_method := method }
        else s) ∧
      st2.cart_items = st.cart_items ∧
      r = { success := true, sale_id := sale.id, status := SaleStatus.completed,
            is_paid := true, amount_paid := sale.total } := by
  unfold complete_pay_later_sale at h
  by_cases hm : ¬(method = "cash" ∨ method = "mobile")
  · rw [if_pos hm] at h
    simp at h
  · rw [if_neg hm] at h
    cases hsale : SaleRepository.get_sale_with_items st sale_id shop_id with
    | none =>
      simp only [hsale] at h
      simp at h
    | some sale =>
      simp only [hsale] at h
      by_cases hp : sale.is_paid = true
      · rw [if_pos hp] at h
        simp at h
      · rw [if_neg hp] at h
        by_cases hpod : sale.payment_method ≠ "pay_on_delivery"
        · rw [if_pos hpod] at h
          simp at h
        · rw [if_neg hpod] at h
          cases hdec : decrementStock st.products (st.cart_items.filter (fun ci => ci.sale_id == sale_id)) with
          | error e2 =>
            simp only [hdec] at h
            simp at h
          | ok products2 =>
            simp only [hdec] at h
            have h1 := congrArg Prod.fst h
            have h2 := congrArg Prod.snd h
            simp only [Prod.fst, Prod.snd] at h1 h2
            simp only [Except.ok.injEq] at h2
            refine ⟨sale, products2, not_not.mp hm, rfl, Bool.not_eq_true _ ▸ hp, not_not.mp hpod, rfl,
              ?_, ?_, ?_, h2.symm⟩
            · rw [← h1]
            · rw [← h1]
            · rw [← h1]

end Bhat

namespace Bhat

/-- C6: for every positive amount, `round_up_to_nearest_five` returns a
multiple of 5 that is at least the input and strictly less than the input
plus 5. -/
theorem round_up_to_nearest_five_spec (amount : ℚ) (h : 0 < amount) :
    (∃ k : ℤ, round_up_to_nearest_five amount = 5 * k) ∧
      amount ≤ round_up_to_nearest_five amount ∧
      round_up_to_nearest_five amount < amount + 5 := by
  have h5 : (0 : ℚ) ≤ amount / 5 := by positivity
  unfold round_up_to_nearest_five toIntegralRoundUp
  rw [if_pos h5]
  refine ⟨⟨⌈amount / 5⌉, by ring⟩, ?_, ?_⟩
  · have := Int.le_ceil (amount / 5)
    have h' : amount / 5 * 5 ≤ (⌈amount / 5⌉ : ℚ) * 5 := by
      exact mul_le_mul_of_nonneg_right this (by norm_num)
    calc amount = amount / 5 * 5 := by ring
      _ ≤ (⌈amount / 5⌉ : ℚ) * 5 := h'
  · have := Int.ceil_lt_add_one (amount / 5)
    have h' : (⌈amount / 5⌉ : ℚ) * 5 < (amount / 5 + 1) * 5 := by
      exact mul_lt_mul_of_pos_right this (by norm_num)
    calc (⌈amount / 5⌉ : ℚ) * 5 < (amount / 5 + 1) * 5 := h'
      _ = amount + 5 := by ring

/-- Witness for C6 at amount 42: the rounded value is 45. -/
theorem round_up_to_nearest_five_spec_witness :
    (0 : ℚ) < 42 ∧
      ((∃ k : ℤ, round_up_to_nearest_five 42 = 5 * k) ∧
        (42 : ℚ) ≤ round_up_to_nearest_five 42 ∧
        round_up_to_nearest_five 42 < 42 + 5) :=
  ⟨by norm_num, round_up_to_nearest_five_spec 42 (by norm_num)⟩

/-- C4: the checkout-request validator accepts a (mode, method, customer_name)
triple exactly when mode is `pay_now` with method `cash` or `mobile`, or mode
is `pay_later` with method absent or `pay_on_delivery` and a (non-empty)
customer name present. -/
theorem checkout_schema_accepts_iff (mode : String) (method : Option String)
    (customerName : Option String) :
    CheckoutSchema.accepts mode method customerName = true ↔
      ((mode = "pay_now" ∧ (method = some "cash" ∨ method = some "mobile")) ∨
        (mode = "pay_later" ∧ (method = none ∨ method = some "pay_on_delivery") ∧
          pyTruthy customerName = true)) := by
  cases method with
  | none =>
    by_cases hn : mode = "pay_now" <;> by_cases hl : mode = "pay_later" <;>
      simp_all [CheckoutSchema.accepts, validate_payment_fields,
        paymentModeFieldOk, paymentMethodFieldOk, pyTruthy]
  | some m =>
    by_cases hn : mode = "pay_now" <;> by_cases hl : mode = "pay_later" <;>
      by_cases hc : m = "cash" <;> by_cases hb : m = "mobile" <;>
      by_cases hp : m = "pay_on_delivery" <;>
      simp_all [CheckoutSchema.accepts, validate_payment_fields,
        paymentModeFieldOk, paymentMethodFieldOk, pyTruthy]


/-- C3: for every successful checkout, `pay_now` yields a COMPLETED, paid
sale, and `pay_later` yields a PENDING, unpaid sale whose payment method is
force-set to `pay_on_delivery`; the returned result reports the same status
and paid flag. -/
theorem checkout_mode_invariant
    (st : DBState) (shop_id user_id : Nat) (cart : List CartLine)
    (payment_mode : String) (payment_method : Option String)
    (cust : Option CustomerData) (st2 : DBState) (r : CheckoutResult)
    (h : processCheckout st shop_id user_id cart payment_mode payment_method cust
      = (st2, Except.ok r)) :
    ∃ sale : Sale, st2.sales = st.sales ++ [sale] ∧
      (payment_mode = "pay_now" →
        sale.status = SaleStatus.completed ∧ sale.is_paid = true ∧
        r.status = SaleStatus.completed ∧ r.is_paid = true) ∧
      (payment_mode = "pay_later" →
        sale.status = SaleStatus.pending ∧ sale.is_paid = false ∧
        sale.payment_method = "pay_on_delivery" ∧
        r.status = SaleStatus.pending ∧ r.is_paid = false) := by
  obtain ⟨m, staged, S, C, upds, hc, hv, hs, hst, hr⟩ := processCheckout_ok_inv h
  subst hst
  subst hr
  refine ⟨checkoutSale st shop_id user_id payment_mode m cust S C, rfl, ?_, ?_⟩
  · intro hmode
    subst hmode
    exact ⟨rfl, rfl, rfl, rfl⟩
  · intro hmode
    subst hmode
    obtain ⟨hm, _⟩ := checkoutValidate_payLater hv
    subst hm
    exact ⟨rfl, rfl, rfl, rfl, rfl⟩

/-- Witness for C3 at a concrete `pay_later` checkout. -/
theorem checkout_mode_invariant_witness :
    ∃ sale : Sale,
      ({ products := [exProduct],
         sales := [{ id := 7, shop_id := 1, user_id := 1, date := 100,
                     status := SaleStatus.pending, is_paid := false,
                     payment_mode := "pay_later", payment_method := "pay_on_delivery",
                     customer_name := some "Alice", subtotal := 40, tax := 0,
                     total := 40, profit := 32 }],
         cart_items := [{ sale_id := 7, shop_id := 1, product_id := 1,
                          quantity := 4, unit_price := 10, total_price := 40 }],
         taxes := [], next_sale_id := 8, now := 100 } : DBState).sales
        = exState.sales ++ [sale] ∧
      ("pay_later" = "pay_now" →
        sale.status = SaleStatus.completed ∧ sale.is_paid = true ∧
        ({ success := true, sale_id := 7, payment_mode := "pay_later",
           status := SaleStatus.pending, is_paid := false, amount_paid := 0,
           receipt_pending := false, customer_name := some "Alice" } : CheckoutResult).status
          = SaleStatus.completed ∧
        ({ success := true, sale_id := 7, payment_mode := "pay_later",
           status := SaleStatus.pending, is_paid := false, amount_paid := 0,
           receipt_pending := false, customer_name := some "Alice" } : CheckoutResult).is_paid
          = true) ∧
      ("pay_later" = "pay_later" →
        sale.status = SaleStatus.pending ∧ sale.is_paid = false ∧
        sale.payment_method = "pay_on_delivery" ∧
        ({ success := true, sale_id := 7, payment_mode := "pay_later",
           status := SaleStatus.pending, is_paid := false, amount_paid := 0,
           receipt_pending := false, customer_name := some "Alice" } : CheckoutResult).status
          = SaleStatus.pending ∧
        ({ success := true, sale_id := 7, payment_mode := "pay_later",
           status := SaleStatus.pending, is_paid := false, amount_paid := 0,
           receipt_pending := false, customer_name := some "Alice" } : CheckoutResult).is_paid
          = false) :=
  checkout_mode_invariant exState 1 1 [⟨1, 4, 10⟩] "pay_later" none (some exCustomer) _ _
    (by with_unfolding_all decide)

/-- C5: for every successful checkout with accumulated rounded subtotal S,
accumulated unrounded cost C and the shop tax rate R, the persisted sale has
tax = S*R quantized to 2 decimal places (half-even), total = S + tax, and
profit = S - C (tax excluded). -/
theorem profit_tax_independence
    (st : DBState) (shop_id user_id : Nat) (cart : List CartLine)
    (mode : String) (method : Option String) (cust : Option CustomerData)
    (st2 : DBState) (r : CheckoutResult) (staged : List CartItemRec)
    (S C : ℚ) (upds : List (Nat × ℚ))
    (hstage : stageItems (checkoutProductMap st shop_id cart)
      (decide (mode = "pay_now")) shop_id cart = Except.ok (staged, S, C, upds))
    (h : processCheckout st shop_id user_id cart mode method cust = (st2, Except.ok r)) :
    ∃ sale : Sale, st2.sales = st.sales ++ [sale] ∧
      sale.subtotal = S ∧
      sale.tax = quantize2 (S * Tax.get_tax_rate st shop_id) ∧
      sale.total = S + sale.tax ∧
      sale.profit = S - C := by
  obtain ⟨m, staged2, S2, C2, upds2, hc, hv, hs, hst, hr⟩ := processCheckout_ok_inv h
  rw [hstage] at hs
  simp only [Except.ok.injEq, Prod.mk.injEq] at hs
  obtain ⟨h1, h2, h3, h4⟩ := hs
  subst h1
  subst h2
  subst h3
  subst h4
  subst hst
  exact ⟨checkoutSale st shop_id user_id mode m cust S C, rfl, rfl, rfl, rfl, rfl⟩

/-- Witness for C5: a one-line pay_now cart with a 16% tax configured. -/
theorem profit_tax_independence_witness :
    (stageItems
        (checkoutProductMap
          { products := [exProduct], sales := [], cart_items := [],
            taxes := [{ shop_id := 1, rate := 16/100, is_active := true, is_deleted := false }],
            next_sale_id := 7, now := 100 } 1 [⟨1, 4, 10⟩])
        (decide (("pay_now" : String) = "pay_now")) 1 [⟨1, 4, 10⟩]
      = Except.ok ([{ sale_id := 0, shop_id := 1, product_id := 1, quantity := 4,
                      unit_price := 10, total_price := 40 }], 40, 8, [(1, 6)])) ∧
    ∃ sale : Sale,
      ((processCheckout
          { products := [exProduct], sales := [], cart_items := [],
            taxes := [{ shop_id := 1, rate := 16/100, is_active := true, is_deleted := false }],
            next_sale_id := 7, now := 100 } 1 1 [⟨1, 4, 10⟩] "pay_now" (some "cash") none).1).sales
        = ({ products := [exProduct], sales := [], cart_items := [],
             taxes := [{ shop_id := 1, rate := 16/100, is_active := true, is_deleted := false }],
             next_sale_id := 7, now := 100 } : DBState).sales ++ [sale] ∧
      sale.subtotal = 40 ∧
      sale.tax = quantize2 (40 * Tax.get_tax_rate
        { products := [exProduct], sales := [], cart_items := [],
          taxes := [{ shop_id := 1, rate := 16/100, is_active := true, is_deleted := false }],
          next_sale_id := 7, now := 100 } 1) ∧
      sale.total = 40 + sale.tax ∧
      sale.profit = 40 - 8 :=
  ⟨by with_unfolding_all decide,
   profit_tax_independence _ 1 1 [⟨1, 4, 10⟩] "pay_now" (some "cash") none _
     { success := true, sale_id := 7, payment_mode := "pay_now",
       status := SaleStatus.completed, is_paid := true, amount_paid := 232/5,
       receipt_pending := true, customer_name := none }
     [{ sale_id := 0, shop_id := 1, product_id := 1, quantity := 4,
        unit_price := 10, total_price := 40 }]
     40 8 [(1, 6)]
     (by with_unfolding_all decide)
     (by with_unfolding_all decide)⟩

/-- C2: a checkout failing at any point before the commit rolls back: the
returned state has no new Sale row, no new CartItem rows and unchanged
product stocks; and a cart containing a product id with no match in the shop
always fails. -/
theorem checkout_atomicity :
    (∀ (st : DBState) (shop_id user_id : Nat) (cart : List CartLine) (mode : String)
        (method : Option String) (cust : Option CustomerData) (e : CheckoutError),
        (processCheckout st shop_id user_id cart mode method cust).2 = Except.error e →
        (processCheckout st shop_id user_id cart mode method cust).1.sales = st.sales ∧
        (processCheckout st shop_id user_id cart mode method cust).1.cart_items = st.cart_items ∧
        (processCheckout st shop_id user_id cart mode method cust).1.products = st.products) ∧
    (∀ (st : DBState) (shop_id user_id : Nat) (cart : List CartLine) (mode : String)
        (method : Option String) (cust : Option CustomerData) (l : CartLine),
        l ∈ cart → checkoutProductMap st shop_id cart l.product_id = none →
        ∃ e, (processCheckout st shop_id user_id cart mode method cust).2 = Except.error e) := by
  constructor
  · intro st shop_id user_id cart mode method cust e h
    rw [processCheckout_error_state h]
    exact ⟨rfl, rfl, rfl⟩
  · intro st shop_id user_id cart mode method cust l hl hnone
    unfold processCheckout
    have hc : ¬ (cart = []) := by
      intro hemp
      rw [hemp] at hl
      cases hl
    rw [if_neg hc]
    cases hv : checkoutValidate mode method cust with
    | error e => exact ⟨e, rfl⟩
    | ok m =>
      obtain ⟨e, he⟩ := @stageItems_error_of_missing (checkoutProductMap st shop_id cart)
        (decide (mode = "pay_now")) shop_id cart ⟨l, hl, hnone⟩
      refine ⟨e, ?_⟩
      simp only [he]

/-- Witness for C2: a two-line cart whose second product id has no match. -/
theorem checkout_atomicity_witness :
    ((processCheckout exState 1 1 [⟨1, 4, 10⟩, ⟨2, 1, 5⟩] "pay_now" (some "cash") none).1.sales
        = exState.sales ∧
      (processCheckout exState 1 1 [⟨1, 4, 10⟩, ⟨2, 1, 5⟩] "pay_now" (some "cash") none).1.cart_items
        = exState.cart_items ∧
      (processCheckout exState 1 1 [⟨1, 4, 10⟩, ⟨2, 1, 5⟩] "pay_now" (some "cash") none).1.products
        = exState.products) ∧
    ∃ e, (processCheckout exState 1 1 [⟨1, 4, 10⟩, ⟨2, 1, 5⟩] "pay_now" (some "cash") none).2
        = Except.error e :=
  ⟨checkout_atomicity.1 exState 1 1 [⟨1, 4, 10⟩, ⟨2, 1, 5⟩] "pay_now" (some "cash") none
      (CheckoutError.productNotFound 2) (by with_unfolding_all decide),
   checkout_atomicity.2 exState 1 1 [⟨1, 4, 10⟩, ⟨2, 1, 5⟩] "pay_now" (some "cash") none
      ⟨2, 1, 5⟩ (by with_unfolding_all decide) (by with_unfolding_all decide)⟩


/-- C1 (amended): for every committed `pay_now` checkout whose cart lines
reference pairwise-distinct product ids, each affected product's stock
afterwards equals its stock before minus the summed committed quantities for
that product, and unaffected products keep their stock; a committed
`pay_later` checkout changes no stock; for every committed pay-later
completion, each product's stock afterwards equals its stock before minus the
summed quantities of the sale's line items for it; stock stays nonnegative
across both operations; a `pay_now` checkout with a line whose quantity
exceeds that product's stock (all products resolving) is rejected with the
insufficient-stock InvalidInput, leaving the state unchanged; and a failing
completion leaves the state unchanged.  (The original claim, without the
distinct-product-ids proviso on checkouts, is refuted by
a cart naming one product twice.) -/
theorem stock_invariant_per_product :
    (∀ (st : DBState) (shop_id user_id : Nat) (cart : List CartLine)
        (method : Option String) (cust : Option CustomerData)
        (st2 : DBState) (r : CheckoutResult),
        (st.products.map (·.id)).Nodup →
        (cart.map (·.product_id)).Nodup →
        processCheckout st shop_id user_id cart "pay_now" method cust = (st2, Except.ok r) →
        (∀ l ∈ cart, ∃ p, p ∈ st.products ∧ p.id = l.product_id ∧
            stockOf st2.products l.product_id
              = some (p.stock - cartQtySum cart l.product_id)) ∧
          (∀ pid, pid ∉ cart.map (·.product_id) →
            stockOf st2.products pid = stockOf st.products pid)) ∧
    (∀ (st : DBState) (shop_id user_id : Nat) (cart : List CartLine)
        (method : Option String) (cust : Option CustomerData)
        (st2 : DBState) (r : CheckoutResult),
        processCheckout st shop_id user_id cart "pay_later" method cust = (st2, Except.ok r) →
        st2.products = st.products) ∧
    (∀ (st : DBState) (sale_id shop_id : Nat) (method : String)
        (st2 : DBState) (r : CompleteResult),
        complete_pay_later_sale st sale_id shop_id method = (st2, Except.ok r) →
        ∀ pid s, stockOf st.products pid = some s →
          stockOf st2.products pid
            = some (s - itemsQtySum (st.cart_items.filter (fun ci => ci.sale_id == sale_id)) pid)) ∧
    (∀ (st : DBState) (shop_id user_id : Nat) (cart : List CartLine) (mode : String)
        (method : Option String) (cust : Option CustomerData),
        (∀ p ∈ st.products, 0 ≤ p.stock) →
        ∀ p ∈ (processCheckout st shop_id user_id cart mode method cust).1.products,
          0 ≤ p.stock) ∧
    (∀ (st : DBState) (sale_id shop_id : Nat) (method : String),
        (∀ p ∈ st.products, 0 ≤ p.stock) →
        ∀ p ∈ (complete_pay_later_sale st sale_id shop_id method).1.products, 0 ≤ p.stock) ∧
    (∀ (st : DBState) (shop_id user_id : Nat) (cart : List CartLine)
        (method : Option String) (cust : Option CustomerData) (m : String),
        checkoutValidate "pay_now" method cust = Except.ok m →
        (∀ l ∈ cart, ∃ p, checkoutProductMap st shop_id cart l.product_id = some p) →
        (∃ l ∈ cart, ∃ p, checkoutProductMap st shop_id cart l.product_id = some p ∧
          p.stock < l.quantity) →
        ∃ n, processCheckout st shop_id user_id cart "pay_now" method cust
          = (st, Except.error (CheckoutError.insufficientStock n))) ∧
    (∀ (st : DBState) (sale_id shop_id : Nat) (method : String) (e : CheckoutError),
        (complete_pay_later_sale st sale_id shop_id method).2 = Except.error e →
        (complete_pay_later_sale st sale_id shop_id method).1 = st) := by
  refine ⟨?_, ?_, ?_, ?_, ?_, ?_, ?_⟩
  · intro st shop_id user_id cart method cust st2 r hnp hnc h
    obtain ⟨m, staged, S, C, upds, hc, hv, hs, hst, hr⟩ := processCheckout_ok_inv h
    have hd : (decide (("pay_now" : String) = "pay_now")) = true := by
      with_unfolding_all decide
    rw [hd] at hs
    have hid : ∀ pid p, checkoutProductMap st shop_id cart pid = some p → p.id = pid :=
      fun pid p hp => (checkoutProductMap_eq_some hp).2.1
    have hf2 := stageItems_payNow_forall2 hs
    subst hst
    constructor
    · intro l hl
      have hll := lastLineQty_nodup hnc hl
      obtain ⟨p, hp, hu⟩ := lastUpdate_some_of_forall2 hid hf2 hll
      obtain ⟨hpmem, hpid, _⟩ := checkoutProductMap_eq_some hp
      refine ⟨p, hpmem, hpid, ?_⟩
      rw [show (commitCheckout st shop_id user_id "pay_now" m cust staged S C upds).1.products
          = applyStockUpdates st.products upds from rfl, stockOf_applyStockUpdates]
      simp only [hu]
      rw [stockOf_eq_of_nodup hnp hpmem hpid, cartQtySum_nodup hnc hl]
      rfl
    · intro pid hpid
      have hln := lastLineQty_eq_none hpid
      have hun := lastUpdate_none_of_forall2 hid hf2 hln
      rw [show (commitCheckout st shop_id user_id "pay_now" m cust staged S C upds).1.products
          = applyStockUpdates st.products upds from rfl, stockOf_applyStockUpdates]
      simp only [hun]
  · intro st shop_id user_id cart method cust st2 r h
    obtain ⟨m, staged, S, C, upds, hc, hv, hs, hst, hr⟩ := processCheckout_ok_inv h
    have hd : (decide (("pay_later" : String) = "pay_now")) = false := by
      with_unfolding_all decide
    rw [hd] at hs
    have hupd := stageItems_payLater_upds hs
    subst hupd
    subst hst
    rfl
  · intro st sale_id shop_id method st2 r h pid s hstock
    obtain ⟨sale, products2, _, _, _, _, hdec, hprod, _, _, _⟩ := complete_ok_inv h
    rw [hprod, decrementStock_stock _ _ _ hdec pid]
    simp only [hstock]
  · intro st shop_id user_id cart mode method cust hpos
    cases hres : (processCheckout st shop_id user_id cart mode method cust).2 with
    | error e =>
      rw [processCheckout_error_state hres]
      exact hpos
    | ok r =>
      have heq : processCheckout st shop_id user_id cart mode method cust
          = ((processCheckout st shop_id user_id cart mode method cust).1,
             Except.ok r) := by
        rw [← hres]
      obtain ⟨m, staged, S, C, upds, hc, hv, hs, hst, hr⟩ := processCheckout_ok_inv heq
      intro p hp
      rw [hst] at hp
      rw [show (commitCheckout st shop_id user_id mode m cust staged S C upds).1.products
          = applyStockUpdates st.products upds from rfl] at hp
      exact applyStockUpdates_nonneg upds st.products (stageItems_upds_nonneg hs) hpos p hp
  · intro st sale_id shop_id method hpos
    cases hres : (complete_pay_later_sale st sale_id shop_id method).2 with
    | error e =>
      rw [complete_error_state hres]
      exact hpos
    | ok r =>
      have heq : complete_pay_later_sale st sale_id shop_id method
          = ((complete_pay_later_sale st sale_id shop_id method).1, Except.ok r) := by
        rw [← hres]
      obtain ⟨sale, products2, _, _, _, _, hdec, hprod, _, _, _⟩ := complete_ok_inv heq
      intro p hp
      rw [hprod] at hp
      exact decrementStock_nonneg _ _ _ hdec hpos p hp
  · intro st shop_id user_id cart method cust m hv hall hex
    have hc : ¬ (cart = []) := by
      obtain ⟨l, hl, _⟩ := hex
      intro hemp
      rw [hemp] at hl
      cases hl
    obtain ⟨n, hn⟩ := @stageItems_error_of_insufficient
      (checkoutProductMap st shop_id cart) shop_id cart hall hex
    refine ⟨n, ?_⟩
    unfold processCheckout
    rw [if_neg hc]
    simp only [hv, decide_True]
    simp only [hn]
  · intro st sale_id shop_id method e h
    exact complete_error_state h

/-- C1 counterexample: the claim as stated fails on a cart naming the same
product on two lines.  With stock 10 and two lines of quantity 4 for product
1, the checkout commits, the final stock is 6, yet stock before minus the
summed committed quantities is 10 - 8 = 2 ≠ 6. -/
theorem stock_sum_claim_counterexample :
    ((processCheckout exState 1 1 dupCart "pay_now" (some "cash") none).2).isOk = true ∧
    cartQtySum dupCart 1 = 8 ∧
    stockOf exState.products 1 = some 10 ∧
    stockOf ((processCheckout exState 1 1 dupCart "pay_now" (some "cash") none).1).products 1
      = some 6 ∧
    ¬ ((6 : ℚ) = 10 - 8) := by
  with_unfolding_all decide

/-- Witness for C1 at a distinct-ids cart and at an insufficient-stock cart. -/
theorem stock_invariant_per_product_witness :
    ((∀ l ∈ ([⟨1, 4, 10⟩] : List CartLine), ∃ p, p ∈ exState.products ∧ p.id = l.product_id ∧
        stockOf ((processCheckout exState 1 1 [⟨1, 4, 10⟩] "pay_now" (some "cash") none).1).products
            l.product_id
          = some (p.stock - cartQtySum [⟨1, 4, 10⟩] l.product_id)) ∧
      (∀ pid, pid ∉ ([⟨1, 4, 10⟩] : List CartLine).map (·.product_id) →
        stockOf ((processCheckout exState 1 1 [⟨1, 4, 10⟩] "pay_now" (some "cash") none).1).products pid
          = stockOf exState.products pid)) ∧
    (∃ n, processCheckout exState 1 1 [⟨1, 20, 10⟩] "pay_now" (some "cash") none
        = (exState, Except.error (CheckoutError.insufficientStock n))) :=
  ⟨stock_invariant_per_product.1 exState 1 1 [⟨1, 4, 10⟩] (some "cash") none _
      { success := true, sale_id := 7, payment_mode := "pay_now",
        status := SaleStatus.completed, is_paid := true, amount_paid := 40,
        receipt_pending := true, customer_name := none }
      (by with_unfolding_all decide) (by with_unfolding_all decide)
      (by with_unfolding_all decide),
   stock_invariant_per_product.2.2.2.2.2.1 exState 1 1 [⟨1, 20, 10⟩] (some "cash") none "cash"
      (by with_unfolding_all decide)
      (by
        intro l hl
        rw [List.mem_singleton] at hl
        subst hl
        exact ⟨exProduct, by with_unfolding_all decide⟩)
      ⟨⟨1, 20, 10⟩, by with_unfolding_all decide,
        exProduct, by with_unfolding_all decide, by with_unfolding_all decide⟩⟩

/-- C10: for a committed `pay_now` checkout, each line's stock check compares
that line's quantity alone against the product's pre-checkout stock; each
staged stock update is (product id, pre-checkout stock minus that single
line's quantity); and since the staged updates apply in order, the committed
stock equals the pre-checkout stock minus only the last matching line's
quantity. -/
theorem checkout_duplicate_lines_behavior
    (st : DBState) (shop_id user_id : Nat) (cart : List CartLine)
    (method : Option String) (cust : Option CustomerData)
    (st2 : DBState) (r : CheckoutResult)
    (hnp : (st.products.map (·.id)).Nodup)
    (h : processCheckout st shop_id user_id cart "pay_now" method cust = (st2, Except.ok r)) :
    (∀ l ∈ cart, ∃ p, checkoutProductMap st shop_id cart l.product_id = some p ∧
      ¬ (p.stock < l.quantity)) ∧
    (∃ staged S C upds,
      stageItems (checkoutProductMap st shop_id cart) true shop_id cart
        = Except.ok (staged, S, C, upds) ∧
      List.Forall₂ (fun (l : CartLine) (u : Nat × ℚ) =>
        ∃ p, checkoutProductMap st shop_id cart l.product_id = some p ∧
          u = (l.product_id, p.stock - l.quantity)) cart upds) ∧
    (∀ pid q, lastLineQty cart pid = some q →
      ∃ p, p ∈ st.products ∧ p.id = pid ∧
        stockOf st2.products pid = some (p.stock - q)) := by
  obtain ⟨m, staged, S, C, upds, hc, hv, hs, hst, hr⟩ := processCheckout_ok_inv h
  have hd : (decide (("pay_now" : String) = "pay_now")) = true := by
    with_unfolding_all decide
  rw [hd] at hs
  have hid : ∀ pid p, checkoutProductMap st shop_id cart pid = some p → p.id = pid :=
    fun pid p hp => (checkoutProductMap_eq_some hp).2.1
  have hf2 := stageItems_payNow_forall2 hs
  subst hst
  refine ⟨?_, ⟨staged, S, C, upds, hs, ?_⟩, ?_⟩
  · intro l hl
    obtain ⟨p, hp, hns⟩ := stageItems_ok_mem hs l hl
    exact ⟨p, hp, fun hlt => hns ⟨rfl, hlt⟩⟩
  · refine List.Forall₂.imp ?_ hf2
    intro l u hrel
    obtain ⟨p, hp, _, hu⟩ := hrel
    exact ⟨p, hp, by rw [hu, hid l.product_id p hp]⟩
  · intro pid q hq
    obtain ⟨p, hp, hu⟩ := lastUpdate_some_of_forall2 hid hf2 hq
    obtain ⟨hpmem, hpid, _⟩ := checkoutProductMap_eq_some hp
    refine ⟨p, hpmem, hpid, ?_⟩
    rw [show (commitCheckout st shop_id user_id "pay_now" m cust staged S C upds).1.products
        = applyStockUpdates st.products upds from rfl, stockOf_applyStockUpdates]
    simp only [hu]
    rw [stockOf_eq_of_nodup hnp hpmem hpid]
    rfl

/-- Witness for C10 at the duplicate-line cart: last line wins (stock 6). -/
theorem checkout_duplicate_lines_behavior_witness :
    ((∀ l ∈ dupCart, ∃ p, checkoutProductMap exState 1 dupCart l.product_id = some p ∧
        ¬ (p.stock < l.quantity)) ∧
      (∃ staged S C upds,
        stageItems (checkoutProductMap exState 1 dupCart) true 1 dupCart
          = Except.ok (staged, S, C, upds) ∧
        List.Forall₂ (fun (l : CartLine) (u : Nat × ℚ) =>
          ∃ p, checkoutProductMap exState 1 dupCart l.product_id = some p ∧
            u = (l.product_id, p.stock - l.quantity)) dupCart upds) ∧
      (∀ pid q, lastLineQty dupCart pid = some q →
        ∃ p, p ∈ exState.products ∧ p.id = pid ∧
          stockOf ((processCheckout exState 1 1 dupCart "pay_now" (some "cash") none).1).products pid
            = some (p.stock - q))) :=
  checkout_duplicate_lines_behavior exState 1 1 dupCart (some "cash") none _
    { success := true, sale_id := 7, payment_mode := "pay_now",
      status := SaleStatus.completed, is_paid := true, amount_paid := 80,
      receipt_pending := true, customer_name := none }
    (by with_unfolding_all decide) (by with_unfolding_all decide)


lemma shopIdThenSlug_eq (db : HomeDB) (a : Option Nat) (b : Option String) :
    shopIdThenSlug db a b
      = firstSome (shopIdParamShop db a) (shopSlugParamShop db b) := by
  cases a with
  | none => rfl
  | some sid =>
    cases hf : db.shops.find? (fun sh => sh.id == sid) with
    | none => simp only [shopIdThenSlug, shopIdParamShop, firstSome, hf]
    | some shop =>
      cases hs : db.settings.find? (fun s => s.shop_id == shop.id) with
      | none => simp only [shopIdThenSlug, shopIdParamShop, firstSome, hf, hs]
      | some hsrec =>
        by_cases ha : hsrec.is_active = true
        · simp only [shopIdThenSlug, shopIdParamShop, firstSome, hf, hs]
          rw [if_pos ha, if_pos ha]
        · simp only [shopIdThenSlug, shopIdParamShop, firstSome, hf, hs]
          rw [if_neg ha, if_neg ha]

/-- C7: shop resolution tries its sources in strict order with first match
winning — the routing function coincides with the priority-ordered
composition written from the claim; in particular a custom-domain match wins
over a `shop_id` parameter naming a different shop, and a host with no
matching settings still resolves via `shop_slug`. -/
theorem shop_resolution_priority :
    (∀ (db : HomeDB) (req : HttpRequest),
        get_shop_from_request db req = resolveShopSpec db req) ∧
    get_shop_from_request exHomeDB
        { host := "shop1.com", shop_id := some 2, shop_slug := none } = some 1 ∧
    get_shop_from_request exHomeDB2
        { host := "shop1.example.com", shop_id := none, shop_slug := some "shop1" } = some 1 := by
  refine ⟨?_, by with_unfolding_all decide, by with_unfolding_all decide⟩
  intro db req
  unfold get_shop_from_request resolveShopSpec customDomainShop subdomainShop
  cases h1 : db.settings.find? (fun s => s.custom_domain == some req.host && s.is_active) with
  | some s => rfl
  | none =>
    by_cases hdot : req.host.contains (Char.ofNat 46) = true
    · rw [if_pos hdot, if_pos hdot]
      by_cases hres : ((req.host.splitOn ".").headD "" = "www" ∨
          (req.host.splitOn ".").headD "" = "app" ∨
          (req.host.splitOn ".").headD "" = "admin" ∨
          (req.host.splitOn ".").headD "" = "api")
      · rw [if_pos hres, if_pos hres]
        exact shopIdThenSlug_eq db req.shop_id req.shop_slug
      · rw [if_neg hres, if_neg hres]
        cases h2 : db.settings.find? (fun s =>
            s.subdomain == some ((req.host.splitOn ".").headD "") && s.is_active) with
        | some s => rfl
        | none => exact shopIdThenSlug_eq db req.shop_id req.shop_slug
    · rw [if_neg hdot, if_neg hdot]
      exact shopIdThenSlug_eq db req.shop_id req.shop_slug

/-- C8 (code bug): `get_daily_sales_summary` cannot return its summary —
its first statement references `timedelta`, which the module never imports
(line 2 binds only `datetime`), so every call raises
`NameError: name 'timedelta' is not defined` before any query runs. -/
theorem daily_summary_name_error (st : DBState) (shop_id days : Nat) :
    get_daily_sales_summary st shop_id days
      = Except.error (PyError.nameError "timedelta") := by
  unfold get_daily_sales_summary
  rw [if_neg (by decide)]

/-- C9: the `lru_cache(maxsize=32)`-backed tax-rate lookup never holds more
than 32 entries, and looking up a fresh shop id on a full 32-entry cache
keeps the size at 32 while evicting the least-recently-accessed entry (the
last in recency order). -/
theorem tax_cache_lru :
    (∀ (st : DBState) (c : LruCache) (k : Nat),
        c.entries.length ≤ 32 →
        ((TaxService.get_tax_rate st c k).2).entries.length ≤ 32) ∧
    (∀ (st : DBState) (c : LruCache) (k : Nat) (front : List (Nat × ℚ)) (last : Nat × ℚ),
        c.entries = front ++ [last] →
        c.entries.length = 32 →
        (c.entries.map (·.1)).Nodup →
        c.entries.find? (fun e => e.1 == k) = none →
        ((TaxService.get_tax_rate st c k).2).entries = (k, activeTaxRate st k) :: front ∧
        ((TaxService.get_tax_rate st c k).2).entries.length = 32 ∧
        last.1 ∉ ((TaxService.get_tax_rate st c k).2).entries.map (·.1)) := by
  constructor
  · intro st c k hle
    unfold TaxService.get_tax_rate lruLookup
    cases hf : c.entries.find? (fun e => e.1 == k) with
    | some e =>
      show ((k, e.2) :: c.entries.filter (fun e2 => !(e2.1 == k))).length ≤ 32
      have hpe : (e.1 == k) = true := by
        have h2 := List.find?_some hf
        simpa using h2
      have hmem := List.mem_of_find?_eq_some hf
      have hne : (c.entries.filter (fun e2 => !(e2.1 == k))).length ≠ c.entries.length := by
        intro heq
        have hall := List.filter_length_eq_length.mp heq e hmem
        rw [hpe] at hall
        cases hall
      have hlt := Nat.lt_of_le_of_ne (List.length_filter_le _ _) hne
      simp only [List.length_cons]
      omega
    | none =>
      show (((k, activeTaxRate st k) :: c.entries).take 32).length ≤ 32
      rw [List.length_take]
      omega
  · intro st c k front last hdecomp hlen hnodup hmiss
    have hent : ((TaxService.get_tax_rate st c k).2).entries
        = ((k, activeTaxRate st k) :: c.entries).take 32 := by
      unfold TaxService.get_tax_rate lruLookup
      simp only [hmiss]
    have hfl : front.length = 31 := by
      have hca := congrArg List.length hdecomp
      rw [List.length_append] at hca
      simp only [List.length_cons, List.length_nil] at hca
      omega
    have hent2 : ((TaxService.get_tax_rate st c k).2).entries
        = (k, activeTaxRate st k) :: front := by
      rw [hent, hdecomp, show (32 : Nat) = 31 + 1 from rfl, List.take_succ_cons, ← hfl,
        List.take_left]
    have hkeys : (c.entries.map (·.1)) = front.map (·.1) ++ [last.1] := by
      rw [hdecomp, List.map_append]
      rfl
    have hlk : ¬ (last.1 = k) := by
      have hforall := List.find?_eq_none.mp hmiss last
        (by rw [hdecomp]; exact List.mem_append_right _ (List.mem_singleton.mpr rfl))
      simpa using hforall
    refine ⟨hent2, ?_, ?_⟩
    · rw [hent2]
      simp only [List.length_cons]
      omega
    · rw [hent2, List.map_cons]
      intro hcontra
      rcases List.mem_cons.mp hcontra with heq | hmemf
      · exact hlk heq
      · rw [hkeys] at hnodup
        obtain ⟨_, _, hdisj⟩ := List.nodup_append.mp hnodup
        exact hdisj hmemf (List.mem_singleton.mpr rfl)

/-- Witness for C9: a full 32-entry cache and a fresh shop id 100. -/
theorem tax_cache_lru_witness :
    (((TaxService.get_tax_rate exState
        ⟨(List.range 32).map (fun i => (i, (0 : ℚ)))⟩ 100).2).entries.length ≤ 32) ∧
    (((TaxService.get_tax_rate exState
          ⟨(List.range 32).map (fun i => (i, (0 : ℚ)))⟩ 100).2).entries
        = (100, activeTaxRate exState 100) :: (List.range 31).map (fun i => (i, (0 : ℚ))) ∧
      ((TaxService.get_tax_rate exState
          ⟨(List.range 32).map (fun i => (i, (0 : ℚ)))⟩ 100).2).entries.length = 32 ∧
      (31, (0 : ℚ)).1 ∉ ((TaxService.get_tax_rate exState
          ⟨(List.range 32).map (fun i => (i, (0 : ℚ)))⟩ 100).2).entries.map (·.1)) :=
  ⟨tax_cache_lru.1 exState ⟨(List.range 32).map (fun i => (i, (0 : ℚ)))⟩ 100
      (by with_unfolding_all decide),
   tax_cache_lru.2 exState ⟨(List.range 32).map (fun i => (i, (0 : ℚ)))⟩ 100
      ((List.range 31).map (fun i => (i, (0 : ℚ)))) (31, (0 : ℚ))
      (by with_unfolding_all decide) (by with_unfolding_all decide)
      (by with_unfolding_all decide) (by with_unfolding_all decide)⟩

end Bhat
